import Mathlib

/-!
Verification of the restaurant management system (src/app.py).

The program is a thin layer of SQL statements over a single SQLite file.
We embed it shallowly: every table is a Lean list of row structures, the
AUTOINCREMENT id sequences of the `menu` and `orders` tables are explicit
counters that only ever grow, and each method of `RestaurantDB` becomes a
pure function on the database state.  REAL columns are modelled as `Rat`
(the values of interest are exact).  Timestamps are modelled as calendar
dates, which is what the reporting step inspects.
-/

/-- A calendar date, the part of `created_at` that the reporting step uses. -/
structure Date where
  year : Nat
  month : Nat
  day : Nat
deriving DecidableEq, Repr

/-- A row of the `menu` table; mirrors the Python `MenuItem` class. -/
structure MenuItem where
  id : Nat
  name : String
  price : Rat
  cost : Rat
deriving DecidableEq, Repr

/-- A row of the `orders` table. -/
structure OrderRow where
  id : Nat
  created_at : Date
  total_revenue : Rat
  total_cost : Rat
deriving DecidableEq, Repr

/-- A row of the `order_items` association table. -/
structure OrderItem where
  order_id : Nat
  menu_id : Nat
deriving DecidableEq, Repr

/-- The database state: the three tables the claims are about, together with
the AUTOINCREMENT sequences of `menu` and `orders`.  SQLite AUTOINCREMENT
keeps the next id in `sqlite_sequence`; it is never decreased by deletes. -/
structure DB where
  menu : List MenuItem
  orders : List OrderRow
  order_items : List OrderItem
  menuNextId : Nat
  ordersNextId : Nat
deriving DecidableEq, Repr

/-- A freshly created database: empty tables, AUTOINCREMENT sequences at 1. -/
def initDB : DB :=
  { menu := [], orders := [], order_items := [], menuNextId := 1, ordersNextId := 1 }

/-- `RestaurantDB.add_menu_item`: INSERT INTO menu (name, price, cost). -/
def add_menu_item (s : DB) (name : String) (price cost : Rat) : DB :=
  { s with
    menu := s.menu ++ [⟨s.menuNextId, name, price, cost⟩]
    menuNextId := s.menuNextId + 1 }

/-- `RestaurantDB.get_menu`: SELECT id, name, price, cost FROM menu
(rowid/insertion order). -/
def get_menu (s : DB) : List MenuItem :=
  s.menu

/-- `RestaurantDB.delete_menu_item`: DELETE FROM order_items WHERE menu_id = ?;
DELETE FROM menu WHERE id = ?. -/
def delete_menu_item (s : DB) (item_id : Nat) : DB :=
  { s with
    order_items := s.order_items.filter (fun oi => oi.menu_id ≠ item_id)
    menu := s.menu.filter (fun m => m.id ≠ item_id) }

/-- The totals loop of `RestaurantDB.place_order`: for each id,
SELECT price, cost FROM menu WHERE id = ?; a missing row contributes
nothing. -/
def order_totals (s : DB) (item_ids : List Nat) : Rat × Rat :=
  item_ids.foldl
    (fun acc item_id =>
      match s.menu.find? (fun m => m.id = item_id) with
      | some m => (acc.1 + m.price, acc.2 + m.cost)
      | none => acc)
    (0, 0)

/-- `RestaurantDB.place_order`: compute the totals, INSERT one orders row
(`created_at` defaults to the current timestamp, passed here as `now`),
then INSERT one order_items row per input id referencing the new order. -/
def place_order (s : DB) (item_ids : List Nat) (now : Date) : DB :=
  let totals := order_totals s item_ids
  let oid := s.ordersNextId
  { s with
    orders := s.orders ++ [⟨oid, now, totals.1, totals.2⟩]
    ordersNextId := oid + 1
    order_items := s.order_items ++ item_ids.map (fun item_id => ⟨oid, item_id⟩) }

/-- A row of the dataframe returned by `get_orders_df`: the orders row plus
the derived `profit` column. -/
structure OrderWithProfit where
  id : Nat
  created_at : Date
  total_revenue : Rat
  total_cost : Rat
  profit : Rat
deriving DecidableEq, Repr

/-- `RestaurantDB.get_orders_df`: SELECT id, created_at, total_revenue,
total_cost FROM orders, then add the column profit = total_revenue -
total_cost. -/
def get_orders_df (s : DB) : List OrderWithProfit :=
  s.orders.map
    (fun o => ⟨o.id, o.created_at, o.total_revenue, o.total_cost,
               o.total_revenue - o.total_cost⟩)

/-!
The sales-report step (src/app.py lines 181-200): on an empty dataframe the
UI short-circuits to an informational message; otherwise it adds a string
`period` column (here: the "Monthly" branch, pandas `to_period("M")`,
rendered "YYYY-MM"), groups by it, and sums revenue, cost and profit per
group.  Pandas `groupby` returns the groups sorted by key, i.e. in lexical
order of the period labels.
-/

/-- Zero-padded two-digit rendering of a month number. -/
def pad2 (n : Nat) : String :=
  if n < 10 then "0" ++ toString n else toString n

/-- The "Monthly" period label: `to_period("M").astype(str)` gives
"YYYY-MM". -/
def monthLabel (d : Date) : String :=
  toString d.year ++ "-" ++ pad2 d.month

/-- Insert a label into a lexically sorted list of labels. -/
def insert_sorted (x : String) (l : List String) : List String :=
  match l with
  | [] => [x]
  | y :: ys => if x ≤ y then x :: y :: ys else y :: insert_sorted x ys

/-- The distinct group keys in sorted order, as pandas `groupby` produces
them. -/
def sorted_keys (l : List String) : List String :=
  l.foldl (fun acc k => if k ∈ acc then acc else insert_sorted k acc) []

/-- Sum of (total_revenue, total_cost, profit) over the rows of one period
group. -/
def period_sums (rows : List OrderWithProfit) (label : Date → String)
    (k : String) : Rat × Rat × Rat :=
  rows.foldl
    (fun acc r =>
      if label r.created_at = k then
        (acc.1 + r.total_revenue, acc.2.1 + r.total_cost, acc.2.2 + r.profit)
      else acc)
    (0, 0, 0)

/-- `df.groupby(period)[[total_revenue, total_cost, profit]].sum()`: one row
per distinct period label, keys sorted, each with the three summed columns. -/
def group_sum (rows : List OrderWithProfit) (label : Date → String) :
    List (String × Rat × Rat × Rat) :=
  (sorted_keys (rows.map (fun r => label r.created_at))).map
    (fun k => (k, period_sums rows label k))

/-- The outcome of the sales-report section: either the informational
"No orders yet" state or the grouped table. -/
inductive ReportOut where
  | noData : ReportOut
  | table : List (String × Rat × Rat × Rat) → ReportOut
deriving DecidableEq, Repr

/-- The sales-report step: `if df.empty: st.info(...) else: groupby...sum`. -/
def render_report (rows : List OrderWithProfit) (label : Date → String) :
    ReportOut :=
  if rows.isEmpty then ReportOut.noData else ReportOut.table (group_sum rows label)

/-!
Schema state, for `RestaurantDB._create_tables` (src/app.py lines 20-84).
The routine issues five CREATE TABLE IF NOT EXISTS statements, then reads
PRAGMA table_info and additively ALTERs `menu` (cost) and `orders`
(created_at / total_revenue / total_cost), backfilling a NULL `created_at`
with CURRENT_TIMESTAMP.  We track which tables exist, which of the
migratable columns each has, and the row contents the routine can touch:
row counts per table, and the `created_at` value of every orders row.
-/

/-- The schema-level database state seen by `_create_tables`. -/
structure SchemaDB where
  hasMenu : Bool
  hasOrders : Bool
  hasOrderItems : Bool
  hasMisc : Bool
  hasBillings : Bool
  menuHasCost : Bool
  ordersHasCreatedAt : Bool
  ordersHasRevenue : Bool
  ordersHasCost : Bool
  menuRowCount : Nat
  ordersCreatedAt : List (Option String)
  orderItemsRowCount : Nat
  miscRowCount : Nat
  billingsRowCount : Nat
deriving DecidableEq, Repr

/-- CREATE TABLE IF NOT EXISTS menu: fires only when the table is absent,
in which case the new table is empty and already has the cost column. -/
def create_menu (s : SchemaDB) : SchemaDB :=
  if s.hasMenu then s else
    { s with hasMenu := true, menuHasCost := true, menuRowCount := 0 }

/-- Whether CREATE TABLE menu actually created a table. -/
def create_menu_count (s : SchemaDB) : Nat :=
  if s.hasMenu then 0 else 1

/-- CREATE TABLE IF NOT EXISTS orders: a freshly created orders table is
empty and has all three later-migrated columns. -/
def create_orders (s : SchemaDB) : SchemaDB :=
  if s.hasOrders then s else
    { s with hasOrders := true, ordersHasCreatedAt := true,
             ordersHasRevenue := true, ordersHasCost := true,
             ordersCreatedAt := [] }

/-- Whether CREATE TABLE orders actually created a table. -/
def create_orders_count (s : SchemaDB) : Nat :=
  if s.hasOrders then 0 else 1

/-- CREATE TABLE IF NOT EXISTS order_items. -/
def create_order_items (s : SchemaDB) : SchemaDB :=
  if s.hasOrderItems then s else { s with hasOrderItems := true, orderItemsRowCount := 0 }

/-- Whether CREATE TABLE order_items actually created a table. -/
def create_order_items_count (s : SchemaDB) : Nat :=
  if s.hasOrderItems then 0 else 1

/-- CREATE TABLE IF NOT EXISTS miscellaneous_expense. -/
def create_misc (s : SchemaDB) : SchemaDB :=
  if s.hasMisc then s else { s with hasMisc := true, miscRowCount := 0 }

/-- Whether CREATE TABLE miscellaneous_expense actually created a table. -/
def create_misc_count (s : SchemaDB) : Nat :=
  if s.hasMisc then 0 else 1

/-- CREATE TABLE IF NOT EXISTS billings. -/
def create_billings (s : SchemaDB) : SchemaDB :=
  if s.hasBillings then s else { s with hasBillings := true, billingsRowCount := 0 }

/-- Whether CREATE TABLE billings actually created a table. -/
def create_billings_count (s : SchemaDB) : Nat :=
  if s.hasBillings then 0 else 1

/-- ALTER TABLE menu ADD COLUMN cost, fired only when PRAGMA table_info
shows the column missing. -/
def alter_menu_cost (s : SchemaDB) : SchemaDB :=
  if s.menuHasCost then s else { s with menuHasCost := true }

/-- Whether the menu cost ALTER actually fired. -/
def alter_menu_cost_count (s : SchemaDB) : Nat :=
  if s.menuHasCost then 0 else 1

/-- ALTER TABLE orders ADD COLUMN created_at plus the UPDATE backfilling
every NULL created_at with the current timestamp, fired only when the
column is missing (a freshly added column is NULL on every row). -/
def alter_orders_created_at (s : SchemaDB) (now : String) : SchemaDB :=
  if s.ordersHasCreatedAt then s else
    { s with ordersHasCreatedAt := true
             ordersCreatedAt := s.ordersCreatedAt.map (fun _ => some now) }

/-- Whether the orders created_at ALTER actually fired. -/
def alter_orders_created_at_count (s : SchemaDB) : Nat :=
  if s.ordersHasCreatedAt then 0 else 1

/-- ALTER TABLE orders ADD COLUMN total_revenue. -/
def alter_orders_revenue (s : SchemaDB) : SchemaDB :=
  if s.ordersHasRevenue then s else { s with ordersHasRevenue := true }

/-- Whether the orders total_revenue ALTER actually fired. -/
def alter_orders_revenue_count (s : SchemaDB) : Nat :=
  if s.ordersHasRevenue then 0 else 1

/-- ALTER TABLE orders ADD COLUMN total_cost. -/
def alter_orders_cost (s : SchemaDB) : SchemaDB :=
  if s.ordersHasCost then s else { s with ordersHasCost := true }

/-- Whether the orders total_cost ALTER actually fired. -/
def alter_orders_cost_count (s : SchemaDB) : Nat :=
  if s.ordersHasCost then 0 else 1

/-- The five CREATE TABLE IF NOT EXISTS statements, in program order. -/
def after_creates (s : SchemaDB) : SchemaDB :=
  create_billings (create_misc (create_order_items (create_orders (create_menu s))))

/-- How many tables the five CREATE statements actually created. -/
def creates_count (s : SchemaDB) : Nat :=
  create_menu_count s + create_orders_count (create_menu s)
    + create_order_items_count (create_orders (create_menu s))
    + create_misc_count (create_order_items (create_orders (create_menu s)))
    + create_billings_count (create_misc (create_order_items (create_orders (create_menu s))))

/-- The migration block: the four conditional ALTERs, in program order. -/
def migrate_state (s : SchemaDB) (now : String) : SchemaDB :=
  alter_orders_cost (alter_orders_revenue (alter_orders_created_at (alter_menu_cost s) now))

/-- How many ALTER statements the migration block actually applied. -/
def alters_count (s : SchemaDB) (now : String) : Nat :=
  alter_menu_cost_count s + alter_orders_created_at_count (alter_menu_cost s)
    + alter_orders_revenue_count (alter_orders_created_at (alter_menu_cost s) now)
    + alter_orders_cost_count
        (alter_orders_revenue (alter_orders_created_at (alter_menu_cost s) now))

/-- `RestaurantDB._create_tables`: the five CREATE TABLE IF NOT EXISTS
statements followed by the PRAGMA-guarded migration ALTERs, returning the
new schema state, the number of tables actually created, and the number of
ALTER statements actually applied. -/
def create_tables (s : SchemaDB) (now : String) : SchemaDB × Nat × Nat :=
  (migrate_state (after_creates s) now, creates_count s,
   alters_count (after_creates s) now)

/-!
Operation traces over the live database, for the id-freshness invariant.
The UI dispatches exactly these three mutating operations.
-/

/-- One mutating call the UI can dispatch against `RestaurantDB`. -/
inductive Op where
  | add (name : String) (price cost : Rat) : Op
  | del (item_id : Nat) : Op
  | order (item_ids : List Nat) (now : Date) : Op
deriving Repr

/-- Dispatch one operation. -/
def apply_op (s : DB) : Op → DB
  | Op.add n p c => add_menu_item s n p c
  | Op.del i => delete_menu_item s i
  | Op.order ids d => place_order s ids d

/-- Run a trace of operations from a state. -/
def run_ops (s : DB) (ops : List Op) : DB :=
  ops.foldl apply_op s

/-- The menu ids handed out by the `add` calls of a trace, in order: each
`INSERT INTO menu` receives the AUTOINCREMENT sequence value current at
that call. -/
def assigned_ids (s : DB) : List Op → List Nat
  | [] => []
  | op :: rest =>
    match op with
    | Op.add _ _ _ => s.menuNextId :: assigned_ids (apply_op s op) rest
    | _ => assigned_ids (apply_op s op) rest

/-!
Concrete states used to instantiate the claims.
-/

/-- 2025-01-01, the sample order date. -/
def d0 : Date := ⟨2025, 1, 1⟩

/-- A menu with items (10, 4) and (5, 2), as in the spec's order example. -/
def sampleDB : DB :=
  add_menu_item (add_menu_item initDB "i1" 10 4) "i2" 5 2

/-- The spec's order example: place an order for both sample items. -/
def dbC1 : DB := place_order sampleDB [1, 2] d0

/-- An order history with orders on 2025-01-01, 2025-01-02 and 2025-02-01. -/
def dbC7 : DB :=
  { initDB with
    orders := [⟨1, ⟨2025, 1, 1⟩, 10, 4⟩, ⟨2, ⟨2025, 1, 2⟩, 5, 2⟩,
               ⟨3, ⟨2025, 2, 1⟩, 7, 3⟩]
    ordersNextId := 4 }

/-- The menu rows that a sequence of `add_menu_item` calls should produce,
ids counting up from `start`. -/
def expected_menu (start : Nat) : List (String × Rat × Rat) → List MenuItem
  | [] => []
  | (n, p, c) :: rest => ⟨start, n, p, c⟩ :: expected_menu (start + 1) rest

/-- Run a sequence of `add_menu_item` calls. -/
def run_adds (s : DB) (l : List (String × Rat × Rat)) : DB :=
  l.foldl (fun acc t => add_menu_item acc t.1 t.2.1 t.2.2) s

/-!
Theorems.
-/

/-- Claim C1: placing an order for the two sample items with
(price, cost) = (10, 4) and (5, 2) creates exactly one orders row with
total_revenue 15 and total_cost 6, exactly two order_items rows referencing
it, and `get_orders_df` derives profit 9 for it. -/
theorem place_order_example :
    dbC1.orders = [⟨1, d0, 15, 6⟩]
    ∧ dbC1.order_items = [⟨1, 1⟩, ⟨1, 2⟩]
    ∧ (get_orders_df dbC1).map OrderWithProfit.profit = [9] := by
  norm_num [dbC1, sampleDB, place_order, order_totals, add_menu_item, initDB, d0,
    get_orders_df, List.find?]

/-- Claim C2: for every state and id, `delete_menu_item` removes the menu
item with that id from `get_menu`, keeps every other menu item, removes all
order_items rows whose menu_id equals the id, and leaves the orders table
(in particular every total_revenue and total_cost) unchanged. -/
theorem delete_menu_item_frame (s : DB) (i : Nat) :
    (∀ m ∈ get_menu (delete_menu_item s i), m.id ≠ i)
    ∧ (∀ m ∈ get_menu s, m.id ≠ i → m ∈ get_menu (delete_menu_item s i))
    ∧ (∀ oi ∈ (delete_menu_item s i).order_items, oi.menu_id ≠ i)
    ∧ (delete_menu_item s i).orders = s.orders := by
  refine ⟨?_, ?_, ?_, rfl⟩
  · intro m hm
    simp [get_menu, delete_menu_item, List.mem_filter] at hm
    exact hm.2
  · intro m hm hne
    simp [get_menu, delete_menu_item, List.mem_filter]
    exact ⟨hm, hne⟩
  · intro oi hoi
    simp [delete_menu_item, List.mem_filter] at hoi
    exact hoi.2

/-- Witness for C2 at a concrete state: deleting item 1 from the sample
menu keeps item 2 in `get_menu`. -/
theorem delete_menu_item_frame_witness :
    (⟨2, "i2", 5, 2⟩ : MenuItem) ∈ get_menu (delete_menu_item sampleDB 1) :=
  (delete_menu_item_frame sampleDB 1).2.1 ⟨2, "i2", 5, 2⟩
    (by simp [get_menu, sampleDB, add_menu_item, initDB]) (by decide)

/-- The menu list produced by a sequence of `add_menu_item` calls is the
old menu followed by the new rows with consecutive ids. -/
theorem run_adds_menu : ∀ (l : List (String × Rat × Rat)) (s : DB),
    (run_adds s l).menu = s.menu ++ expected_menu s.menuNextId l
  | [], s => by simp [run_adds, expected_menu]
  | (n, p, c) :: rest, s => by
      show (run_adds (add_menu_item s n p c) rest).menu = _
      rw [run_adds_menu rest]
      simp [add_menu_item, expected_menu]

/-- Every id in `expected_menu start l` is at least `start`. -/
theorem expected_menu_id_ge : ∀ (l : List (String × Rat × Rat)) (start : Nat),
    ∀ m ∈ expected_menu start l, start ≤ m.id
  | [], _ => by simp [expected_menu]
  | (n, p, c) :: rest, start => by
      intro m hm
      rcases (List.mem_cons).1 hm with rfl | hm
      · exact le_refl _
      · exact le_trans (Nat.le_succ start) (expected_menu_id_ge rest (start + 1) m hm)

/-- The ids in `expected_menu start l` are strictly increasing. -/
theorem expected_menu_pairwise : ∀ (l : List (String × Rat × Rat)) (start : Nat),
    (expected_menu start l).Pairwise (fun a b => a.id < b.id)
  | [], _ => by simp [expected_menu]
  | (n, p, c) :: rest, start => by
      refine List.pairwise_cons.2 ⟨?_, expected_menu_pairwise rest (start + 1)⟩
      intro b hb
      exact lt_of_lt_of_le (Nat.lt_succ_self start) (expected_menu_id_ge rest (start + 1) b hb)

/-- Claim C3: starting from the empty menu, after any sequence of
`add_menu_item` calls `get_menu` returns exactly the added items in
insertion order with consecutive ids from 1, each carrying the given name,
price and cost; the ids are strictly ascending along the list. -/
theorem get_menu_after_adds (l : List (String × Rat × Rat)) :
    get_menu (run_adds initDB l) = expected_menu 1 l
    ∧ (get_menu (run_adds initDB l)).Pairwise (fun a b => a.id < b.id) := by
  have h : get_menu (run_adds initDB l) = expected_menu 1 l := by
    simpa [get_menu, initDB] using run_adds_menu l initDB
  exact ⟨h, h ▸ expected_menu_pairwise l 1⟩

/-- Claim C4: an id absent from the menu contributes nothing to the totals
loop of `place_order`, and ordering just a missing id creates one orders
row with zero revenue and zero cost (and still one order_items row). -/
theorem place_order_missing_id (s : DB) (i : Nat) (rest : List Nat) (d : Date)
    (h : ∀ m ∈ s.menu, m.id ≠ i) :
    order_totals s (i :: rest) = order_totals s rest
    ∧ (place_order s [i] d).orders = s.orders ++ [⟨s.ordersNextId, d, 0, 0⟩]
    ∧ (place_order s [i] d).order_items = s.order_items ++ [⟨s.ordersNextId, i⟩] := by
  have hf : s.menu.find? (fun m => m.id = i) = none := by
    apply List.find?_eq_none.mpr
    intro x hx
    simpa using h x hx
  refine ⟨?_, ?_, ?_⟩
  · simp [order_totals, hf]
  · simp [place_order, order_totals, hf]
  · simp [place_order]

/-- Witness for C4: ordering the absent id 99 against the sample menu. -/
theorem place_order_missing_id_witness :
    order_totals sampleDB [99, 1] = order_totals sampleDB [1]
    ∧ (place_order sampleDB [99] d0).orders
        = sampleDB.orders ++ [⟨sampleDB.ordersNextId, d0, 0, 0⟩]
    ∧ (place_order sampleDB [99] d0).order_items
        = sampleDB.order_items ++ [⟨sampleDB.ordersNextId, 99⟩] :=
  place_order_missing_id sampleDB 99 [1] d0 (by decide)

/-- Claim C5: `place_order` on the empty selection is not rejected: it
still creates one orders row with total_revenue 0 and total_cost 0, and
adds no order_items rows. -/
theorem place_order_empty (s : DB) (d : Date) :
    (place_order s [] d).orders = s.orders ++ [⟨s.ordersNextId, d, 0, 0⟩]
    ∧ (place_order s [] d).order_items = s.order_items := by
  constructor
  · simp [place_order, order_totals]
  · simp [place_order]

/-- Claim C6: for every input id list, `place_order` appends exactly one
order_items row per element (duplicates and missing ids included), each
referencing the id of the one orders row it creates. -/
theorem place_order_item_rows (s : DB) (ids : List Nat) (d : Date) :
    (place_order s ids d).order_items
        = s.order_items ++ ids.map (fun i => ⟨s.ordersNextId, i⟩)
    ∧ (place_order s ids d).orders
        = s.orders ++ [⟨s.ordersNextId, d, (order_totals s ids).1,
                        (order_totals s ids).2⟩] :=
  ⟨rfl, rfl⟩

/-- Claim C9: on an empty orders table `get_orders_df` returns the empty
result, and the report step renders the informational no-data state rather
than grouping. -/
theorem empty_orders_report (s : DB) (h : s.orders = []) :
    get_orders_df s = []
    ∧ render_report (get_orders_df s) monthLabel = ReportOut.noData := by
  simp [get_orders_df, render_report, h]

/-- Witness for C9 at the freshly initialized database. -/
theorem empty_orders_report_witness :
    get_orders_df initDB = []
    ∧ render_report (get_orders_df initDB) monthLabel = ReportOut.noData :=
  empty_orders_report initDB rfl

/-- Claim C7: grouping the order history with orders on 2025-01-01,
2025-01-02 and 2025-02-01 by the Monthly granularity yields exactly the
two period groups "2025-01" and "2025-02", the first summing the first two
orders (revenue 15, cost 6, profit 9) and the second carrying the third
order alone (revenue 7, cost 3, profit 4). -/
theorem monthly_grouping_example :
    group_sum (get_orders_df dbC7) monthLabel
      = [("2025-01", 15, 6, 9), ("2025-02", 7, 3, 4)] := by
  have h1 : monthLabel ⟨2025, 1, 1⟩ = "2025-01" := by decide
  have h2 : monthLabel ⟨2025, 1, 2⟩ = "2025-01" := by decide
  have h3 : monthLabel ⟨2025, 2, 1⟩ = "2025-02" := by decide
  simp +decide [dbC7, initDB, get_orders_df, group_sum, sorted_keys, insert_sorted,
    period_sums, h1, h2, h3]
  norm_num

/-- Each CREATE step establishes its own table flag. -/
@[simp] theorem create_menu_hasMenu (s : SchemaDB) : (create_menu s).hasMenu = true := by
  unfold create_menu
  split <;> simp_all

/-- CREATE TABLE orders establishes its table flag. -/
@[simp] theorem create_orders_hasOrders (s : SchemaDB) :
    (create_orders s).hasOrders = true := by
  unfold create_orders
  split <;> simp_all

/-- CREATE TABLE order_items establishes its table flag. -/
@[simp] theorem create_order_items_hasOrderItems (s : SchemaDB) :
    (create_order_items s).hasOrderItems = true := by
  unfold create_order_items
  split <;> simp_all

/-- CREATE TABLE miscellaneous_expense establishes its table flag. -/
@[simp] theorem create_misc_hasMisc (s : SchemaDB) : (create_misc s).hasMisc = true := by
  unfold create_misc
  split <;> simp_all

/-- CREATE TABLE billings establishes its table flag. -/
@[simp] theorem create_billings_hasBillings (s : SchemaDB) :
    (create_billings s).hasBillings = true := by
  unfold create_billings
  split <;> simp_all

/-- The menu cost ALTER establishes its column flag. -/
@[simp] theorem alter_menu_cost_menuHasCost (s : SchemaDB) :
    (alter_menu_cost s).menuHasCost = true := by
  unfold alter_menu_cost
  split <;> simp_all

/-- The created_at ALTER establishes its column flag. -/
@[simp] theorem alter_orders_created_at_flag (s : SchemaDB) (now : String) :
    (alter_orders_created_at s now).ordersHasCreatedAt = true := by
  unfold alter_orders_created_at
  split <;> simp_all

/-- The total_revenue ALTER establishes its column flag. -/
@[simp] theorem alter_orders_revenue_flag (s : SchemaDB) :
    (alter_orders_revenue s).ordersHasRevenue = true := by
  unfold alter_orders_revenue
  split <;> simp_all

/-- The total_cost ALTER establishes its column flag. -/
@[simp] theorem alter_orders_cost_flag (s : SchemaDB) :
    (alter_orders_cost s).ordersHasCost = true := by
  unfold alter_orders_cost
  split <;> simp_all

/-- CREATE TABLE orders leaves the earlier-established flags alone. -/
@[simp] theorem create_orders_preserves (s : SchemaDB) :
    (create_orders s).hasMenu = s.hasMenu := by
  unfold create_orders
  split <;> rfl

/-- CREATE TABLE order_items leaves the earlier-established flags alone. -/
@[simp] theorem create_order_items_preserves (s : SchemaDB) :
    (create_order_items s).hasMenu = s.hasMenu
    ∧ (create_order_items s).hasOrders = s.hasOrders := by
  unfold create_order_items
  constructor <;> split <;> rfl

/-- CREATE TABLE miscellaneous_expense leaves the earlier-established flags
alone. -/
@[simp] theorem create_misc_preserves (s : SchemaDB) :
    (create_misc s).hasMenu = s.hasMenu
    ∧ (create_misc s).hasOrders = s.hasOrders
    ∧ (create_misc s).hasOrderItems = s.hasOrderItems := by
  unfold create_misc
  refine ⟨?_, ?_, ?_⟩ <;> split <;> rfl

/-- CREATE TABLE billings leaves the earlier-established flags alone. -/
@[simp] theorem create_billings_preserves (s : SchemaDB) :
    (create_billings s).hasMenu = s.hasMenu
    ∧ (create_billings s).hasOrders = s.hasOrders
    ∧ (create_billings s).hasOrderItems = s.hasOrderItems
    ∧ (create_billings s).hasMisc = s.hasMisc := by
  unfold create_billings
  refine ⟨?_, ?_, ?_, ?_⟩ <;> split <;> rfl

/-- The menu cost ALTER leaves the table flags alone. -/
@[simp] theorem alter_menu_cost_preserves (s : SchemaDB) :
    (alter_menu_cost s).hasMenu = s.hasMenu
    ∧ (alter_menu_cost s).hasOrders = s.hasOrders
    ∧ (alter_menu_cost s).hasOrderItems = s.hasOrderItems
    ∧ (alter_menu_cost s).hasMisc = s.hasMisc
    ∧ (alter_menu_cost s).hasBillings = s.hasBillings := by
  unfold alter_menu_cost
  refine ⟨?_, ?_, ?_, ?_, ?_⟩ <;> split <;> rfl

/-- The created_at ALTER leaves the table flags and the menu cost flag
alone. -/
@[simp] theorem alter_orders_created_at_preserves (s : SchemaDB) (now : String) :
    (alter_orders_created_at s now).hasMenu = s.hasMenu
    ∧ (alter_orders_created_at s now).hasOrders = s.hasOrders
    ∧ (alter_orders_created_at s now).hasOrderItems = s.hasOrderItems
    ∧ (alter_orders_created_at s now).hasMisc = s.hasMisc
    ∧ (alter_orders_created_at s now).hasBillings = s.hasBillings
    ∧ (alter_orders_created_at s now).menuHasCost = s.menuHasCost := by
  unfold alter_orders_created_at
  refine ⟨?_, ?_, ?_, ?_, ?_, ?_⟩ <;> split <;> rfl

/-- The total_revenue ALTER leaves the earlier flags alone. -/
@[simp] theorem alter_orders_revenue_preserves (s : SchemaDB) :
    (alter_orders_revenue s).hasMenu = s.hasMenu
    ∧ (alter_orders_revenue s).hasOrders = s.hasOrders
    ∧ (alter_orders_revenue s).hasOrderItems = s.hasOrderItems
    ∧ (alter_orders_revenue s).hasMisc = s.hasMisc
    ∧ (alter_orders_revenue s).hasBillings = s.hasBillings
    ∧ (alter_orders_revenue s).menuHasCost = s.menuHasCost
    ∧ (alter_orders_revenue s).ordersHasCreatedAt = s.ordersHasCreatedAt := by
  unfold alter_orders_revenue
  refine ⟨?_, ?_, ?_, ?_, ?_, ?_, ?_⟩ <;> split <;> rfl

/-- The total_cost ALTER leaves the earlier flags alone. -/
@[simp] theorem alter_orders_cost_preserves (s : SchemaDB) :
    (alter_orders_cost s).hasMenu = s.hasMenu
    ∧ (alter_orders_cost s).hasOrders = s.hasOrders
    ∧ (alter_orders_cost s).hasOrderItems = s.hasOrderItems
    ∧ (alter_orders_cost s).hasMisc = s.hasMisc
    ∧ (alter_orders_cost s).hasBillings = s.hasBillings
    ∧ (alter_orders_cost s).menuHasCost = s.menuHasCost
    ∧ (alter_orders_cost s).ordersHasCreatedAt = s.ordersHasCreatedAt
    ∧ (alter_orders_cost s).ordersHasRevenue = s.ordersHasRevenue := by
  unfold alter_orders_cost
  refine ⟨?_, ?_, ?_, ?_, ?_, ?_, ?_, ?_⟩ <;> split <;> rfl

/-- After one run of `_create_tables`, every table exists and every
migratable column is present. -/
theorem create_tables_migrated (s : SchemaDB) (now : String) :
    (create_tables s now).1.hasMenu = true
    ∧ (create_tables s now).1.hasOrders = true
    ∧ (create_tables s now).1.hasOrderItems = true
    ∧ (create_tables s now).1.hasMisc = true
    ∧ (create_tables s now).1.hasBillings = true
    ∧ (create_tables s now).1.menuHasCost = true
    ∧ (create_tables s now).1.ordersHasCreatedAt = true
    ∧ (create_tables s now).1.ordersHasRevenue = true
    ∧ (create_tables s now).1.ordersHasCost = true := by
  simp [create_tables, migrate_state, after_creates]

/-- On a fully migrated database, `_create_tables` creates nothing, alters
nothing, and returns the state unchanged. -/
theorem create_tables_of_migrated (s : SchemaDB) (now : String)
    (h1 : s.hasMenu = true) (h2 : s.hasOrders = true)
    (h3 : s.hasOrderItems = true) (h4 : s.hasMisc = true)
    (h5 : s.hasBillings = true) (h6 : s.menuHasCost = true)
    (h7 : s.ordersHasCreatedAt = true) (h8 : s.ordersHasRevenue = true)
    (h9 : s.ordersHasCost = true) :
    create_tables s now = (s, 0, 0) := by
  have e1 : create_menu s = s := by simp [create_menu, h1]
  have e2 : create_orders s = s := by simp [create_orders, h2]
  have e3 : create_order_items s = s := by simp [create_order_items, h3]
  have e4 : create_misc s = s := by simp [create_misc, h4]
  have e5 : create_billings s = s := by simp [create_billings, h5]
  have e6 : alter_menu_cost s = s := by simp [alter_menu_cost, h6]
  have e7 : alter_orders_created_at s now = s := by simp [alter_orders_created_at, h7]
  have e8 : alter_orders_revenue s = s := by simp [alter_orders_revenue, h8]
  have e9 : alter_orders_cost s = s := by simp [alter_orders_cost, h9]
  simp [create_tables, after_creates, migrate_state, creates_count, alters_count,
    e1, e2, e3, e4, e5, e6, e7, e8, e9,
    create_menu_count, create_orders_count, create_order_items_count,
    create_misc_count, create_billings_count, alter_menu_cost_count,
    alter_orders_created_at_count, alter_orders_revenue_count,
    alter_orders_cost_count, h1, h2, h3, h4, h5, h6, h7, h8, h9]

/-- Claim C8: running the schema-initialization routine a second time, from
any database state, is a no-op: it creates zero tables, applies zero ALTER
statements, and returns the state after the first run unchanged (every
table flag, column flag, row count and row content identical). -/
theorem initialize_schema_idempotent (s : SchemaDB) (t1 t2 : String) :
    create_tables (create_tables s t1).1 t2 = ((create_tables s t1).1, 0, 0) := by
  have h := create_tables_migrated s t1
  exact create_tables_of_migrated (create_tables s t1).1 t2
    h.1 h.2.1 h.2.2.1 h.2.2.2.1 h.2.2.2.2.1 h.2.2.2.2.2.1
    h.2.2.2.2.2.2.1 h.2.2.2.2.2.2.2.1 h.2.2.2.2.2.2.2.2

/-- The AUTOINCREMENT sequence of the menu table never decreases under any
single operation. -/
theorem menuNextId_apply_op (s : DB) (op : Op) :
    s.menuNextId ≤ (apply_op s op).menuNextId := by
  cases op <;> simp [apply_op, add_menu_item, delete_menu_item, place_order]

/-- The AUTOINCREMENT sequence of the menu table never decreases under any
trace of operations. -/
theorem menuNextId_run_ops : ∀ (ops : List Op) (s : DB),
    s.menuNextId ≤ (run_ops s ops).menuNextId
  | [], _ => le_refl _
  | op :: rest, s =>
      le_trans (menuNextId_apply_op s op) (menuNextId_run_ops rest (apply_op s op))

/-- Every menu id handed out along a trace stays strictly below the current
AUTOINCREMENT sequence value. -/
theorem assigned_ids_lt : ∀ (ops : List Op) (s : DB),
    ∀ i ∈ assigned_ids s ops, i < (run_ops s ops).menuNextId
  | [], _ => by simp [assigned_ids]
  | op :: rest, s => by
      intro i hi
      cases op with
      | add n p c =>
          rw [assigned_ids] at hi
          rcases (List.mem_cons).1 hi with rfl | hi
          · have h1 : (apply_op s (Op.add n p c)).menuNextId = s.menuNextId + 1 := rfl
            have h2 := menuNextId_run_ops rest (apply_op s (Op.add n p c))
            show s.menuNextId < (run_ops (apply_op s (Op.add n p c)) rest).menuNextId
            omega
          · exact assigned_ids_lt rest (apply_op s (Op.add n p c)) i hi
      | del j =>
          exact assigned_ids_lt rest (apply_op s (Op.del j)) i
            (by simpa [assigned_ids] using hi)
      | order ids dt =>
          exact assigned_ids_lt rest (apply_op s (Op.order ids dt)) i
            (by simpa [assigned_ids] using hi)

/-- Claim C10: menu ids are never reused.  Along any trace of add, delete
and order operations from the fresh database, every id ever assigned by an
add call is strictly below the current AUTOINCREMENT value, and a further
`add_menu_item` hands out exactly that value — so it is strictly greater
than every id assigned before, deletions included, and a dangling
order_items row can never come to reference a later-added menu item. -/
theorem menu_ids_never_reused (ops : List Op) (n : String) (p c : Rat) :
    (∀ i ∈ assigned_ids initDB ops, i < (run_ops initDB ops).menuNextId)
    ∧ add_menu_item (run_ops initDB ops) n p c
        = { run_ops initDB ops with
            menu := (run_ops initDB ops).menu
              ++ [⟨(run_ops initDB ops).menuNextId, n, p, c⟩]
            menuNextId := (run_ops initDB ops).menuNextId + 1 } :=
  ⟨assigned_ids_lt ops initDB, rfl⟩

/-- Witness for C10: in the trace add, delete 1, add, the first assigned id
1 is strictly below the sequence value 3 reached at the end. -/
theorem menu_ids_never_reused_witness :
    (1 : Nat) < (run_ops initDB [Op.add "a" 1 1, Op.del 1, Op.add "b" 2 2]).menuNextId :=
  (menu_ids_never_reused [Op.add "a" 1 1, Op.del 1, Op.add "b" 2 2] "c" 0 0).1
    1 (by decide)
